import Mathlib

/-!
Shallow embedding of the aggregation and cycle-detection engine of the
`curve_control_data` Home Assistant integration
(`data_collector.py`, `daily_aggregator.py`, `simple_collector.py`).

Python floats are modelled as rationals (`ℚ`); `datetime` values as rational
timestamps in seconds; Python `None` as `Option.none`; fallible operations
return `Option`.
-/

namespace CurveControl

/-! ### Rounding (Python `round(x, n)`, round-half-to-even) -/

/-- Round a rational to the nearest integer, ties to even
(the semantics of Python's builtin `round`). -/
def roundHalfEven (x : ℚ) : ℤ :=
  let f : ℤ := ⌊x⌋
  if x - f < 1/2 then f
  else if x - f > 1/2 then f + 1
  else if f % 2 = 0 then f else f + 1

/-- Python `round(x, 2)`. -/
def round2 (x : ℚ) : ℚ := (roundHalfEven (x * 100) : ℚ) / 100

/-- Python `round(x, 4)`. -/
def round4 (x : ℚ) : ℚ := (roundHalfEven (x * 10000) : ℚ) / 10000

/-- Models `statistics.mean` on a list of values (sum divided by length). -/
def mean (l : List ℚ) : ℚ := l.sum / l.length

/-- Python `min` over a nonempty list (`none` on the empty list). -/
def listMin : List ℚ → Option ℚ
  | [] => none
  | x :: xs => some (xs.foldl min x)

/-- Python `max` over a nonempty list (`none` on the empty list). -/
def listMax : List ℚ → Option ℚ
  | [] => none
  | x :: xs => some (xs.foldl max x)

/-! ### HVAC cycle records (`daily_aggregator.record_hvac_cycle`) -/

/-- A finalized HVAC cycle, as built by
`DailyDataAggregator.record_hvac_cycle` (daily_aggregator.py:368-383). -/
structure Cycle where
  action : String
  startTime : ℚ
  endTime : ℚ
  durationMinutes : ℚ
  startTemperature : ℚ
  endTemperature : ℚ
  temperatureChange : ℚ
  deriving Repr, DecidableEq

/-- Implements `record_hvac_cycle` (daily_aggregator.py:368-383):
`duration = (end_time - start_time).total_seconds() / 60`, rounded to 2
decimals; `temperature_change = round(end_temp - start_temp, 2)`.
Timestamps are seconds. -/
def recordHvacCycle (action : String) (startTime endTime startTemp endTemp : ℚ) :
    Cycle :=
  { action := action
    startTime := startTime
    endTime := endTime
    durationMinutes := round2 ((endTime - startTime) / 60)
    startTemperature := startTemp
    endTemperature := endTemp
    temperatureChange := round2 (endTemp - startTemp) }

/-! ### Cycle tracking (`data_collector._track_hvac_cycle`) -/

/-- The collector's per-entity cycle-tracking state
(`_last_hvac_action`, `_hvac_cycle_start`, `_hvac_cycle_start_temp`,
data_collector.py:64-66). `_hvac_cycle_start` is a `datetime` or `None` in
Python, hence truthiness there coincides with `Option.isSome`. -/
structure HvacTracker where
  lastHvacAction : Option String
  hvacCycleStart : Option ℚ
  hvacCycleStartTemp : Option ℚ
  deriving Repr, DecidableEq

/-- One invocation of `_track_hvac_cycle` (data_collector.py:271-300),
given the event's old/new `hvac_action` attributes, the current clock and the
new state's `current_temperature` attribute.  Returns the updated tracker
state and the cycle recorded into the daily aggregator, if any. -/
def trackHvacCycle (tr : HvacTracker) (oldAction newAction : Option String)
    (now : ℚ) (currentTemp : Option ℚ) : HvacTracker × Option Cycle :=
  if (oldAction = some "idle" ∨ oldAction = none) ∧
      (newAction = some "heating" ∨ newAction = some "cooling") then
    ({ lastHvacAction := newAction
       hvacCycleStart := some now
       hvacCycleStartTemp := currentTemp }, none)
  else if (oldAction = some "heating" ∨ oldAction = some "cooling") ∧
      newAction = some "idle" then
    match tr.hvacCycleStart, tr.hvacCycleStartTemp, currentTemp with
    | some start, some startTemp, some endTemp =>
        (⟨none, none, none⟩,
         some (recordHvacCycle (oldAction.getD "") start now startTemp endTemp))
    | _, _, _ => (⟨none, none, none⟩, none)
  else (tr, none)

/-- One `hvac_action` transition event delivered to `_track_hvac_cycle`
(old action, new action, timestamp, `current_temperature`). -/
structure TrackEvent where
  oldAction : Option String
  newAction : Option String
  time : ℚ
  currentTemp : Option ℚ
  deriving Repr, DecidableEq

/-- Run `_track_hvac_cycle` over a sequence of transition events,
collecting the cycles recorded into the daily aggregator in order. -/
def trackSteps (tr : HvacTracker) : List TrackEvent → HvacTracker × List Cycle
  | [] => (tr, [])
  | e :: es =>
    let (tr', c) := trackHvacCycle tr e.oldAction e.newAction e.time e.currentTemp
    let (tr'', cs) := trackSteps tr' es
    (tr'', c.toList ++ cs)

/-! ### Daily summaries and the rolling historical window (`daily_aggregator.py`) -/

/-- The `thermal_rates` portion of a daily summary, as produced by
`_get_current_thermal_rates` (daily_aggregator.py:304-327); each learned
rate attribute may be absent (`None`). -/
structure ThermalRates where
  heatingRateLearned : Option ℚ
  coolingRateLearned : Option ℚ
  naturalRateLearned : Option ℚ
  deriving Repr, DecidableEq

/-- A daily summary as stored in `historical_daily_data`; only the
`thermal_rates` entry is consulted by `_calculate_moving_averages`, the other
entries are carried opaquely (modelled by a tag). -/
structure DaySummary where
  tag : ℕ
  thermalRates : ThermalRates
  deriving Repr, DecidableEq

/-- Appending to `historical_daily_data = deque(maxlen=8)`
(daily_aggregator.py:52, 151): when the deque already holds 8 entries,
appending drops the oldest (leftmost) entry. -/
def historicalAppend (l : List DaySummary) (s : DaySummary) : List DaySummary :=
  if l.length < 8 then l ++ [s] else l.tail ++ [s]

/-- The moving-average report built by `_calculate_moving_averages`
(daily_aggregator.py:329-365): each field is either absent or an
(average, sample-count) pair. -/
structure MovingAverages where
  heatingRate7dayAvg : Option (ℚ × ℕ)
  coolingRate7dayAvg : Option (ℚ × ℕ)
  naturalRate7dayAvg : Option (ℚ × ℕ)
  deriving Repr, DecidableEq

/-- Implements `_calculate_moving_averages` (daily_aggregator.py:329-365): returns the
empty report when the historical window holds fewer than 2 days; otherwise,
for each rate field, collects the values that are not `None` across the
window and, when that list is nonempty, reports its mean rounded to 4
decimals together with the number of values used. -/
def calculateMovingAverages (hist : List DaySummary) : MovingAverages :=
  if hist.length < 2 then ⟨none, none, none⟩
  else
    let heatingRates := hist.filterMap (fun d => d.thermalRates.heatingRateLearned)
    let coolingRates := hist.filterMap (fun d => d.thermalRates.coolingRateLearned)
    let naturalRates := hist.filterMap (fun d => d.thermalRates.naturalRateLearned)
    { heatingRate7dayAvg :=
        if heatingRates.isEmpty then none
        else some (round4 (mean heatingRates), heatingRates.length)
      coolingRate7dayAvg :=
        if coolingRates.isEmpty then none
        else some (round4 (mean coolingRates), coolingRates.length)
      naturalRate7dayAvg :=
        if naturalRates.isEmpty then none
        else some (round4 (mean naturalRates), naturalRates.length) }

/-! ### Temperature summary (`_summarize_temperature_data`) -/

/-- A point recorded by `_record_temperature_data`
(daily_aggregator.py:389-401); each attribute may be absent. -/
structure TempData where
  currentTemp : Option ℚ
  targetTemp : Option ℚ
  humidity : Option ℚ
  deriving Repr, DecidableEq

/-- Python truthiness selection `[d[k] for d in data if d.get(k)]`:
keeps a value only when it is present and nonzero (`0`/`0.0` are falsy). -/
def truthyVals (l : List (Option ℚ)) : List ℚ :=
  l.filterMap (fun v => match v with
    | some x => if x = 0 then none else some x
    | none => none)

/-- A min/max/avg/count block of the temperature summary. -/
structure FieldStats where
  min : ℚ
  max : ℚ
  avg : ℚ
  count : ℕ
  deriving Repr, DecidableEq

/-- Builds a `FieldStats` block from a nonempty value list:
`min`, `max`, `round(mean, 2)` and the number of readings used. -/
def fieldStatsOf (vals : List ℚ) : Option FieldStats :=
  match listMin vals, listMax vals with
  | some mn, some mx =>
      some { min := mn, max := mx, avg := round2 (mean vals), count := vals.length }
  | _, _ => none

/-- Result of `_summarize_temperature_data` (daily_aggregator.py:214-250):
blocks are omitted when no qualifying value exists.  For
`target_temperature` the count is `len(set(targets))` (distinct values). -/
structure TempSummary where
  actualTemperature : Option FieldStats
  targetTemperature : Option FieldStats
  humidity : Option FieldStats
  deriving Repr, DecidableEq

/-- Implements `_summarize_temperature_data` (daily_aggregator.py:214-250).  Values are
selected by Python truthiness (`if d.get("current_temp")` etc.), so absent
values and zeros are both skipped. -/
def summarizeTemperatureData (data : List TempData) : TempSummary :=
  if data.isEmpty then ⟨none, none, none⟩
  else
    let temps := truthyVals (data.map (·.currentTemp))
    let targets := truthyVals (data.map (·.targetTemp))
    let humidity := truthyVals (data.map (·.humidity))
    { actualTemperature := fieldStatsOf temps
      targetTemperature :=
        match listMin targets, listMax targets with
        | some mn, some mx =>
            some { min := mn, max := mx, avg := round2 (mean targets),
                   count := targets.dedup.length }
        | _, _ => none
      humidity := fieldStatsOf humidity }

/-! ### Weather summary (`_summarize_weather_data`) -/

/-- A point recorded by `_record_weather_data` (daily_aggregator.py:417-429);
`condition` is the entity's state string. -/
structure WeatherData where
  condition : String
  temperature : Option ℚ
  humidity : Option ℚ
  deriving Repr, DecidableEq

/-- Lookup in an association list representing a Python dict
(first entry with the key wins). -/
def alistGet (counts : List (String × ℕ)) (s : String) : Option ℕ :=
  match counts with
  | [] => none
  | p :: rest => if p.1 = s then some p.2 else alistGet rest s

/-- One `service_counts[service] += 1` on a `defaultdict(int)` represented
as an association list in insertion order: increments the entry when the
key exists, else appends the key with count 1. -/
def bumpCount (counts : List (String × ℕ)) (s : String) : List (String × ℕ) :=
  match counts with
  | [] => [(s, 1)]
  | p :: rest => if p.1 = s then (p.1, p.2 + 1) :: rest else p :: bumpCount rest s

/-- Occurrence counting in first-encounter order, as a `defaultdict(int)`
filled by a left-to-right scan (daily_aggregator.py:258-260, 281-283). -/
def countsInOrder (l : List String) : List (String × ℕ) :=
  l.foldl bumpCount []

/-- Models `max(condition_counts.keys(), key=condition_counts.get)`: Python `max`
with a key scans the keys in dict insertion order and keeps the first key
whose count is strictly greater than the best so far. -/
def primaryCondition (counts : List (String × ℕ)) : Option String :=
  match counts with
  | [] => none
  | c :: cs => some (cs.foldl (fun best p => if p.2 > best.2 then p else best) c).1

/-- A min/max/avg block (no count field) of the weather summary. -/
structure MinMaxAvg where
  min : ℚ
  max : ℚ
  avg : ℚ
  deriving Repr, DecidableEq

/-- Builds a `MinMaxAvg` block from a nonempty value list. -/
def minMaxAvgOf (vals : List ℚ) : Option MinMaxAvg :=
  match listMin vals, listMax vals with
  | some mn, some mx => some { min := mn, max := mx, avg := round2 (mean vals) }
  | _, _ => none

/-- Result of `_summarize_weather_data` (daily_aggregator.py:268-302). -/
structure WeatherSummary where
  conditions : Option (List (String × ℕ))
  primaryCond : Option String
  outdoorTemperature : Option MinMaxAvg
  outdoorHumidity : Option MinMaxAvg
  deriving Repr, DecidableEq

/-- Implements `_summarize_weather_data` (daily_aggregator.py:268-302).  The `condition`
values are selected by truthiness (the empty string is skipped), numeric
fields by the same truthiness filter as the temperature summary. -/
def summarizeWeatherData (data : List WeatherData) : WeatherSummary :=
  if data.isEmpty then ⟨none, none, none, none⟩
  else
    let conditions := (data.map (·.condition)).filter (fun c => c ≠ "")
    let temps := truthyVals (data.map (·.temperature))
    let humidity := truthyVals (data.map (·.humidity))
    let condCounts := countsInOrder conditions
    { conditions := if conditions.isEmpty then none else some condCounts
      primaryCond := if conditions.isEmpty then none else primaryCondition condCounts
      outdoorTemperature := minMaxAvgOf temps
      outdoorHumidity := minMaxAvgOf humidity }

/-! ### User-input summary (`_summarize_user_inputs`) -/

/-- The `services_used` entry of the user-input summary: the source returns a
(empty) *list* on an empty day and a dict of per-service counts otherwise,
so the value is a union of the two JSON shapes. -/
inductive ServicesUsed
  | asList (l : List String)
  | asCounts (counts : List (String × ℕ))
  deriving Repr, DecidableEq

/-- Result of `_summarize_user_inputs` (daily_aggregator.py:252-266);
`unique_services` is absent from the empty-day result. -/
structure UserInputSummary where
  totalInputs : ℕ
  servicesUsed : ServicesUsed
  uniqueServices : Option ℕ
  deriving Repr, DecidableEq

/-- Implements `_summarize_user_inputs` (daily_aggregator.py:252-266), applied to the
day's recorded service names: empty day yields
`{"total_inputs": 0, "services_used": []}`; otherwise the total count, the
per-service occurrence counts (dict in first-encounter order) and the number
of distinct services. -/
def summarizeUserInputs (services : List String) : UserInputSummary :=
  if services.isEmpty then
    { totalInputs := 0, servicesUsed := .asList [], uniqueServices := none }
  else
    let counts := countsInOrder services
    { totalInputs := services.length
      servicesUsed := .asCounts counts
      uniqueServices := some counts.length }

/-! ### Simple collector polls (`simple_collector._collect_reading`) -/

/-- The entity domains distinguished by `_collect_reading`
(simple_collector.py:141, 174, 189). -/
inductive Domain
  | climate
  | sensor
  | binarySensor
  | other
  deriving Repr, DecidableEq

/-- A Home Assistant entity state as consumed by `_collect_reading`.
`state` is the raw state string; `stateNum` is the result of
`float(state)` when that conversion succeeds and `none` when it raises
(Python float parsing is not re-implemented; the parse outcome is part of
the modelled input).  Attribute fields are `none` when the attribute key is
absent; numeric attributes are carried as parsed rationals. -/
structure HAState where
  state : String
  stateNum : Option ℚ
  domain : Domain
  entityId : String
  attrHvacAction : Option String
  attrHvacMode : Option String
  attrTemperature : Option ℚ
  deriving Repr, DecidableEq

/-- Python truthiness of an optional numeric attribute: `None`, `0` and
`0.0` are falsy, every other number is truthy. -/
def numTruthy (v : Option ℚ) : Bool :=
  match v with
  | some t => if t = 0 then false else true
  | none => false

/-- Python `str.upper()` (ASCII case mapping applied per character; the
same mapping as `String.toUpper`, written as a plain character map so that
it evaluates). -/
def pyUpper (s : String) : String := String.mk (s.data.map Char.toUpper)

/-- Python `str.lower()` (per-character ASCII case mapping). -/
def pyLower (s : String) : String := String.mk (s.data.map Char.toLower)

/-- Python `pat in s` for a nonempty pattern, via `splitOn`. -/
def strContains (s pat : String) : Bool := (s.splitOn pat).length ≥ 2

/-- The climate branch of HVAC-state determination
(simple_collector.py:141-172), producing the intermediate `hvac_action`
variable (before the final HEAT/COOL/OFF mapping).  `currentTempState` is
the temperature entity's state.  In the `AUTO` branch the source guards on
Python truthiness of `temp_state.state` (a string: falsy only when empty)
and of the raw `temperature` attribute (falsy when absent or `0`), then
converts both with `float`, falling back to `'OFF'` when a conversion
raises. -/
def climateHvacAction (hvac : HAState) (currentTempState : HAState) : Option String :=
  let a0 : Option String := hvac.attrHvacAction.map pyUpper
  if a0 = none ∨ a0 = some "" ∨ a0 = some "OFF" ∨ a0 = some "IDLE" ∨ a0 = some "FAN" then
    let mode := pyUpper (hvac.attrHvacMode.getD hvac.state)
    if mode = "HEAT" ∨ mode = "HEATING" then some "HEATING"
    else if mode = "COOL" ∨ mode = "COOLING" then some "COOLING"
    else if mode = "AUTO" then
      if currentTempState.state ≠ "" ∧ numTruthy hvac.attrTemperature then
        match currentTempState.stateNum, hvac.attrTemperature with
        | some c, some t =>
            let tempDiff := t - c
            if tempDiff > 1/2 then some "HEATING"
            else if tempDiff < -(1/2) then some "COOLING"
            else some "OFF"
        | _, _ => some "OFF"
      else a0
    else some "OFF"
  else a0

/-- The sensor branch of HVAC-state determination
(simple_collector.py:174-187). -/
def sensorHvacAction (hvac : HAState) : Option String :=
  let v := pyUpper hvac.state
  let eid := pyLower hvac.entityId
  if (v = "HEAT" ∨ v = "HEATING" ∨ v = "1" ∨ v = "ON") ∧ strContains eid "heat" then
    some "HEATING"
  else if (v = "COOL" ∨ v = "COOLING" ∨ v = "1" ∨ v = "ON") ∧ strContains eid "cool" then
    some "COOLING"
  else if v = "HEAT" ∨ v = "HEATING" then some "HEATING"
  else if v = "COOL" ∨ v = "COOLING" then some "COOLING"
  else some "OFF"

/-- The binary-sensor branch of HVAC-state determination
(simple_collector.py:189-203). -/
def binarySensorHvacAction (hvac : HAState) : Option String :=
  let name := pyLower hvac.entityId
  if pyLower hvac.state = "on" then
    if strContains name "heat" ∨ strContains name "heating" then some "HEATING"
    else if strContains name "cool" ∨ strContains name "cooling" ∨ strContains name "ac" then
      some "COOLING"
    else some "HEATING"
  else some "OFF"

/-- The final mapping to the reported vocabulary
(simple_collector.py:205-211). -/
def finalHvacAction (a : Option String) : String :=
  match a with
  | some s =>
      if s = "HEATING" ∨ s = "HEAT" then "HEAT"
      else if s = "COOLING" ∨ s = "COOL" then "COOL"
      else "OFF"
  | none => "OFF"

/-- Full HVAC-state determination of `_collect_reading`
(simple_collector.py:138-211). -/
def determineHvacAction (hvac : HAState) (currentTempState : HAState) : String :=
  finalHvacAction
    (match hvac.domain with
     | .climate => climateHvacAction hvac currentTempState
     | .sensor => sensorHvacAction hvac
     | .binarySensor => binarySensorHvacAction hvac
     | .other => none)

/-- A raw reading appended to `pending_readings`
(simple_collector.py:224-230). -/
structure Reading where
  timestamp : ℚ
  indoorTemp : ℚ
  indoorHumidity : Option ℚ
  hvacState : String
  targetTemp : ℚ
  deriving Repr, DecidableEq

/-- One `_collect_reading` poll (simple_collector.py:98-247), as a function
of the state-store lookups: `none` means the poll aborts with no reading.
The poll aborts when a required entity (temperature, HVAC or thermostat) is
missing, or when `float(temp_state.state)` or the `float` of the
thermostat's `temperature` attribute (defaulting to `0` when absent)
raises.  The optional humidity entity contributes a value only when
configured, found, not unknown/unavailable, and parseable. -/
def collectReading (now : ℚ) (tempState hvacState thermostatState : Option HAState)
    (humidityConfigured : Bool) (humidityState : Option HAState) : Option Reading :=
  match tempState, hvacState, thermostatState with
  | some temp, some hvac, some thermo =>
    let humidity : Option ℚ :=
      if humidityConfigured then
        match humidityState with
        | some h =>
            if h.state ≠ "unknown" ∧ h.state ≠ "unavailable" then h.stateNum else none
        | none => none
      else none
    let hvacAction := determineHvacAction hvac temp
    match temp.stateNum with
    | none => none
    | some indoorTemp =>
        some { timestamp := now
               indoorTemp := indoorTemp
               indoorHumidity := humidity
               hvacState := hvacAction
               targetTemp := thermo.attrTemperature.getD 0 }
  | _, _, _ => none

/-- The accumulation buffers of `SimpleDataCollector`
(`pending_readings`, `user_inputs_today`, simple_collector.py:40-41). -/
structure CollectorBuffers where
  pendingReadings : List Reading
  userInputsToday : List String
  deriving Repr, DecidableEq

/-- The effect of one `_collect_reading` poll on the collector's buffers:
a successful poll appends one reading to `pending_readings`; an aborted
poll leaves every buffer untouched (`user_inputs_today` is never touched by
a poll). -/
def collectReadingStep (c : CollectorBuffers) (now : ℚ)
    (tempState hvacState thermostatState : Option HAState)
    (humidityConfigured : Bool) (humidityState : Option HAState) : CollectorBuffers :=
  match collectReading now tempState hvacState thermostatState
      humidityConfigured humidityState with
  | none => c
  | some r => { c with pendingReadings := c.pendingReadings ++ [r] }

/-! ### Network sends (`data_collector._send_data_batch`,
`daily_aggregator._send_daily_report`) -/

/-- Outcome of one HTTP POST at the transport boundary: a response with a
status code, a timeout, or a raised client/other exception. -/
inductive SendResult
  | status (code : ℕ)
  | timeout
  | exn
  deriving Repr, DecidableEq

/-- A queued real-time data point (opaque payload tag). -/
abbrev DataPoint := ℕ

/-- Constant `MAX_QUEUE_SIZE` (const.py:26): `data_queue = deque(maxlen=1000)`. -/
def MAX_QUEUE_SIZE : ℕ := 1000

/-- Constant `BATCH_SIZE` (const.py:25). -/
def BATCH_SIZE : ℕ := 10

/-- Implements `_send_data_batch` (data_collector.py:322-359): on HTTP 200 the batch is
dropped from the queue; on any non-200 status, timeout or exception the
batch is re-queued at the front via `data_queue.extendleft(reversed(batch))`
(a bounded deque: elements beyond `maxlen` fall off the right).  All
exceptions are caught, so the function is total.  Returns the new queue. -/
def sendDataBatch (queue batch : List DataPoint) (res : SendResult) : List DataPoint :=
  if batch.isEmpty then queue
  else
    match res with
    | .status code => if code = 200 then queue else (batch ++ queue).take MAX_QUEUE_SIZE
    | .timeout => (batch ++ queue).take MAX_QUEUE_SIZE
    | .exn => (batch ++ queue).take MAX_QUEUE_SIZE

/-- Implements `async_collect_and_send` (data_collector.py:307-320): pops up to
`BATCH_SIZE` items from the front of the queue and sends them; returns the
queue after the send completes. -/
def asyncCollectAndSend (queue : List DataPoint) (res : SendResult) : List DataPoint :=
  if queue.isEmpty then queue
  else
    let k := min BATCH_SIZE queue.length
    sendDataBatch (queue.drop k) (queue.take k) res

/-- The daily aggregator's mutable state
(daily_aggregator.py:46-52). -/
structure AggState where
  dailyHvacCycles : List Cycle
  dailyTemperatureData : List TempData
  dailyUserInputs : List String
  dailyWeatherData : List WeatherData
  historicalDailyData : List DaySummary
  deriving Repr, DecidableEq

/-- Implements `_collect_and_send_daily_data` (daily_aggregator.py:128-154): builds the
daily summary (its `thermal_rates` entry is the external learning read,
passed in here together with an opaque tag for the rest), posts the daily
report, appends the summary to `historical_daily_data` and resets the four
accumulation buffers.  `_send_daily_report` (daily_aggregator.py:431-458)
catches every failure and only logs it: the transport outcome `res` has no
effect on any state, so a failed report payload is retained nowhere. -/
def collectAndSendDailyData (s : AggState) (thermal : ThermalRates) (tag : ℕ)
    (res : SendResult) : AggState :=
  match res with
  | _ =>
    { dailyHvacCycles := []
      dailyTemperatureData := []
      dailyUserInputs := []
      dailyWeatherData := []
      historicalDailyData := historicalAppend s.historicalDailyData ⟨tag, thermal⟩ }

/-! ### Theorems -/

/-- C1: for a sequence of `hvac_action` transitions idle → heating → idle
(start and end temperatures known), the tracker emits exactly one cycle,
with action `"heating"`, `duration_minutes` equal to the elapsed time in
minutes rounded to 2 decimals, and `temperature_change` equal to the
temperature difference rounded to 2 decimals — from any prior tracker
state. -/
theorem idle_heating_idle_emits_one_cycle (tr : HvacTracker) (t0 t1 a b : ℚ) :
    ∃ c : Cycle,
      (trackSteps tr
        [⟨some "idle", some "heating", t0, some a⟩,
         ⟨some "heating", some "idle", t1, some b⟩]).2 = [c] ∧
      c.action = "heating" ∧
      c.durationMinutes = round2 ((t1 - t0) / 60) ∧
      c.temperatureChange = round2 (b - a) := by
  exact ⟨recordHvacCycle "heating" t0 t1 a b, rfl, rfl, rfl, rfl⟩

/-- C2 counterexample: a direct heating → cooling transition (after an
idle → heating opening at time 0) emits no cycle at all — the claimed
closed `"heating"` cycle does not appear — and opens no new cycle: the
tracker still holds the old open cycle (start time 0, not the transition
instant 60). -/
theorem direct_transition_counterexample :
    (trackSteps ⟨none, none, none⟩
      [⟨some "idle", some "heating", 0, some 1⟩,
       ⟨some "heating", some "cooling", 60, some 2⟩]).2 = [] ∧
    (trackSteps ⟨none, none, none⟩
      [⟨some "idle", some "heating", 0, some 1⟩,
       ⟨some "heating", some "cooling", 60, some 2⟩]).1 =
      ⟨some "heating", some 0, some 1⟩ := by
  exact ⟨rfl, rfl⟩

/-- C2 amended: a direct heating ↔ cooling transition (no intervening idle)
is ignored by `_track_hvac_cycle`: no cycle is emitted and the tracker
state is left unchanged, so the previously opened cycle simply stays
open. -/
theorem direct_transition_ignored (tr : HvacTracker) (oldA newA : Option String)
    (t : ℚ) (temp : Option ℚ)
    (h : (oldA = some "heating" ∧ newA = some "cooling") ∨
         (oldA = some "cooling" ∧ newA = some "heating")) :
    trackHvacCycle tr oldA newA t temp = (tr, none) := by
  rcases h with ⟨h1, h2⟩ | ⟨h1, h2⟩ <;> subst h1 <;> subst h2 <;> rfl

/-- Witness for the amended C2 at a concrete input. -/
theorem direct_transition_ignored_witness :
    trackHvacCycle ⟨some "heating", some 0, some 1⟩ (some "heating")
      (some "cooling") 60 (some 2) = (⟨some "heating", some 0, some 1⟩, none) :=
  direct_transition_ignored _ _ _ _ _ (Or.inl ⟨rfl, rfl⟩)

/-- Folding `historicalAppend` keeps the last 8 entries: from a start state
of length at most 8, the fold equals the concatenated history with all but
the last 8 entries dropped. -/
theorem historicalAppend_foldl (xs : List DaySummary) :
    ∀ l : List DaySummary, l.length ≤ 8 →
      xs.foldl historicalAppend l = (l ++ xs).drop (l.length + xs.length - 8) := by
  induction xs with
  | nil =>
      intro l h
      simp [Nat.sub_eq_zero_of_le h]
  | cons x xs ih =>
      intro l h
      by_cases hlt : l.length < 8
      · have h1 : (l ++ [x]).length ≤ 8 := by simp; omega
        have := ih (l ++ [x]) (by simpa using h1)
        simp only [List.foldl_cons, historicalAppend, if_pos hlt]
        rw [this]
        have harr : (l ++ [x]).length + xs.length - 8 =
            l.length + (x :: xs).length - 8 := by simp; omega
        rw [harr, List.append_assoc]
        simp
      · have hl8 : l.length = 8 := by omega
        cases l with
        | nil => simp at hl8
        | cons y l2 =>
            have hl2 : l2.length = 7 := by simpa using hl8
            have h2 : (l2 ++ [x]).length ≤ 8 := by simp [hl2]
            have := ih (l2 ++ [x]) h2
            simp only [List.foldl_cons, historicalAppend, if_neg hlt, List.tail_cons]
            rw [this]
            have e1 : (l2 ++ [x]).length + xs.length - 8 = xs.length := by
              simp [hl2]
            have e2 : (y :: l2).length + (x :: xs).length - 8 = xs.length + 1 := by
              simp [hl2]
            rw [e1, e2, List.append_assoc]
            simp [List.drop_succ_cons]

/-- C4: the rolling historical window never exceeds 8 entries, and any
sequence of pushes leaves exactly the most recent 8 summaries in order
(pushing a 9th summary evicts the oldest, FIFO). -/
theorem rolling_window_capacity (xs : List DaySummary) :
    (xs.foldl historicalAppend []).length ≤ 8 ∧
    xs.foldl historicalAppend [] = xs.drop (xs.length - 8) := by
  have h := historicalAppend_foldl xs [] (by simp)
  simp only [List.nil_append, List.length_nil, Nat.zero_add] at h
  refine ⟨?_, h⟩
  rw [h, List.length_drop]
  omega

/-- C3 counterexample: with a 2-day window in which only one day carries the
heating rate, the code still reports an average built from that single
qualifying entry — the claim demands no result when fewer than 2 entries
carry the field. -/
theorem moving_average_single_entry_counterexample :
    (calculateMovingAverages
      [⟨0, ⟨some 1, none, none⟩⟩, ⟨1, ⟨none, none, none⟩⟩]).heatingRate7dayAvg =
      some (1, 1) ∧
    (([⟨0, ⟨some 1, none, none⟩⟩, ⟨1, ⟨none, none, none⟩⟩] :
        List DaySummary).filterMap
      (fun d => d.thermalRates.heatingRateLearned)).length = 1 := by
  refine ⟨?_, rfl⟩
  norm_num [calculateMovingAverages, List.filterMap, mean, round4, roundHalfEven]

/-- C3 amended: for every rolling window and every thermal-rate field, the
moving average is empty when the *window* holds fewer than 2 entries;
otherwise each field reports the arithmetic mean (rounded to 4 decimals)
of exactly the entries carrying that field, together with the count of
entries used — entries missing the field are skipped, not zero-filled —
whenever at least one (not two) qualifying entry exists, and no result
otherwise. -/
theorem moving_average_characterization (hist : List DaySummary) :
    (hist.length < 2 → calculateMovingAverages hist = ⟨none, none, none⟩) ∧
    (2 ≤ hist.length →
      ((calculateMovingAverages hist).heatingRate7dayAvg =
        if (hist.filterMap (fun d => d.thermalRates.heatingRateLearned)).isEmpty
        then none
        else some
          (round4 (mean (hist.filterMap (fun d => d.thermalRates.heatingRateLearned))),
           (hist.filterMap (fun d => d.thermalRates.heatingRateLearned)).length)) ∧
      ((calculateMovingAverages hist).coolingRate7dayAvg =
        if (hist.filterMap (fun d => d.thermalRates.coolingRateLearned)).isEmpty
        then none
        else some
          (round4 (mean (hist.filterMap (fun d => d.thermalRates.coolingRateLearned))),
           (hist.filterMap (fun d => d.thermalRates.coolingRateLearned)).length)) ∧
      ((calculateMovingAverages hist).naturalRate7dayAvg =
        if (hist.filterMap (fun d => d.thermalRates.naturalRateLearned)).isEmpty
        then none
        else some
          (round4 (mean (hist.filterMap (fun d => d.thermalRates.naturalRateLearned))),
           (hist.filterMap (fun d => d.thermalRates.naturalRateLearned)).length))) := by
  constructor
  · intro h
    simp [calculateMovingAverages, h]
  · intro h
    have hlt : ¬ hist.length < 2 := by omega
    refine ⟨?_, ?_, ?_⟩ <;> simp [calculateMovingAverages, hlt]

/-- Witness for the amended C3 at concrete inputs: a 1-day window reports
nothing; a 2-day window with both days carrying a heating rate reports the
rounded mean of the two values with count 2. -/
theorem moving_average_characterization_witness :
    calculateMovingAverages [⟨0, ⟨some 1, none, none⟩⟩] = ⟨none, none, none⟩ ∧
    (calculateMovingAverages
      [⟨0, ⟨some 1, none, none⟩⟩, ⟨1, ⟨some 2, none, none⟩⟩]).heatingRate7dayAvg =
      if (([⟨0, ⟨some 1, none, none⟩⟩, ⟨1, ⟨some 2, none, none⟩⟩] :
            List DaySummary).filterMap
          (fun d => d.thermalRates.heatingRateLearned)).isEmpty
      then none
      else some
        (round4 (mean (([⟨0, ⟨some 1, none, none⟩⟩, ⟨1, ⟨some 2, none, none⟩⟩] :
              List DaySummary).filterMap
            (fun d => d.thermalRates.heatingRateLearned))),
         (([⟨0, ⟨some 1, none, none⟩⟩, ⟨1, ⟨some 2, none, none⟩⟩] :
              List DaySummary).filterMap
            (fun d => d.thermalRates.heatingRateLearned)).length) :=
  ⟨(moving_average_characterization [⟨0, ⟨some 1, none, none⟩⟩]).1 (by decide),
   ((moving_average_characterization
      [⟨0, ⟨some 1, none, none⟩⟩, ⟨1, ⟨some 2, none, none⟩⟩]).2 (by decide)).1⟩

/-- When every present value is nonzero, the truthiness filter keeps exactly
the present values. -/
theorem truthyVals_of_ne_zero {α : Type} (f : α → Option ℚ) (l : List α)
    (h : ∀ v ∈ l.filterMap f, v ≠ 0) :
    truthyVals (l.map f) = l.filterMap f := by
  induction l with
  | nil => rfl
  | cons d l ih =>
      have hl : ∀ v ∈ l.filterMap f, v ≠ 0 := by
        intro v hv
        apply h
        rw [List.filterMap_cons]
        cases hf : f d with
        | none => simpa using hv
        | some a => simp [hv]
      cases hf : f d with
      | none =>
          simp only [List.map_cons, truthyVals, List.filterMap_cons, hf] at *
          exact ih hl
      | some v =>
          have hv : v ≠ 0 := h v (by simp [List.filterMap_cons, hf])
          simp only [List.map_cons, truthyVals, List.filterMap_cons, hf, if_neg hv] at *
          simpa using ih hl

/-- C5 counterexample: observations with recorded `current_temp` values
`[0, 70]` yield an `actual_temperature` block whose min is `70`, although
the minimum of the raw recorded values is `0` — the truthiness filter drops
the recorded zero, so the stats do not match the raw values. -/
theorem temp_summary_zero_counterexample :
    (summarizeTemperatureData
      [⟨some 0, none, none⟩, ⟨some 70, none, none⟩]).actualTemperature =
      some ⟨70, 70, 70, 1⟩ ∧
    listMin (([⟨some 0, none, none⟩, ⟨some 70, none, none⟩] :
        List TempData).filterMap (fun d => d.currentTemp)) = some 0 ∧
    (70 : ℚ) ≠ 0 := by
  refine ⟨?_, ?_, by norm_num⟩
  · norm_num [summarizeTemperatureData, truthyVals, List.filterMap, fieldStatsOf,
      listMin, listMax, mean, round2, roundHalfEven]
  · norm_num [List.filterMap, listMin]

/-- C5 amended: whenever at least one `current_temp` value is recorded and
every recorded value is nonzero, the `actual_temperature` block of the
daily temperature summary reports exactly the minimum, maximum, arithmetic
mean rounded to 2 decimals, and count of the raw recorded values. -/
theorem temp_summary_roundtrip (data : List TempData)
    (hne : data.filterMap (fun d => d.currentTemp) ≠ [])
    (hnz : ∀ v ∈ data.filterMap (fun d => d.currentTemp), v ≠ 0) :
    ∃ stats : FieldStats,
      (summarizeTemperatureData data).actualTemperature = some stats ∧
      some stats.min = listMin (data.filterMap (fun d => d.currentTemp)) ∧
      some stats.max = listMax (data.filterMap (fun d => d.currentTemp)) ∧
      stats.avg = round2 (mean (data.filterMap (fun d => d.currentTemp))) ∧
      stats.count = (data.filterMap (fun d => d.currentTemp)).length := by
  have htv : truthyVals (data.map (fun d => d.currentTemp)) =
      data.filterMap (fun d => d.currentTemp) :=
    truthyVals_of_ne_zero _ data hnz
  obtain ⟨x, xs, hx⟩ := List.exists_cons_of_ne_nil hne
  have hactual : (summarizeTemperatureData data).actualTemperature =
      fieldStatsOf (truthyVals (data.map (fun d => d.currentTemp))) := by
    cases data with
    | nil => simp at hne
    | cons d ds => rfl
  refine ⟨⟨xs.foldl min x, xs.foldl max x, round2 (mean (x :: xs)),
    (x :: xs).length⟩, ?_, ?_, ?_, ?_, ?_⟩
  · rw [hactual, htv, hx]
    rfl
  · rw [hx]
    rfl
  · rw [hx]
    rfl
  · rw [hx]
  · rw [hx]

/-- Witness for the amended C5 at the spec's example: observations with
`current_temp` values `[68.0, 70.5, 69.2]` yield min 68, max 70.5 and
average 69.23. -/
theorem temp_summary_roundtrip_witness :
    (∃ stats : FieldStats,
      (summarizeTemperatureData
        [⟨some 68, none, none⟩, ⟨some (141/2), none, none⟩,
         ⟨some (346/5), none, none⟩]).actualTemperature = some stats ∧
      some stats.min =
        listMin (([⟨some 68, none, none⟩, ⟨some (141/2), none, none⟩,
          ⟨some (346/5), none, none⟩] : List TempData).filterMap
            (fun d => d.currentTemp)) ∧
      some stats.max =
        listMax (([⟨some 68, none, none⟩, ⟨some (141/2), none, none⟩,
          ⟨some (346/5), none, none⟩] : List TempData).filterMap
            (fun d => d.currentTemp)) ∧
      stats.avg =
        round2 (mean (([⟨some 68, none, none⟩, ⟨some (141/2), none, none⟩,
          ⟨some (346/5), none, none⟩] : List TempData).filterMap
            (fun d => d.currentTemp))) ∧
      stats.count =
        (([⟨some 68, none, none⟩, ⟨some (141/2), none, none⟩,
          ⟨some (346/5), none, none⟩] : List TempData).filterMap
            (fun d => d.currentTemp)).length) ∧
    (summarizeTemperatureData
      [⟨some 68, none, none⟩, ⟨some (141/2), none, none⟩,
       ⟨some (346/5), none, none⟩]).actualTemperature =
      some ⟨68, 141/2, 6923/100, 3⟩ := by
  constructor
  · exact temp_summary_roundtrip _ (by simp [List.filterMap])
      (by norm_num [List.filterMap])
  · norm_num [summarizeTemperatureData, truthyVals, List.filterMap, fieldStatsOf,
      listMin, listMax, mean, round2, roundHalfEven, Int.floor_eq_iff]

/-- C10: in the daily temperature and weather summaries, a recorded field
value of 0 is treated exactly like an absent value — any observation whose
`current_temp`, `target_temp` or `humidity` (resp. weather `temperature` or
`humidity`) equals 0 contributes nothing to the corresponding statistics,
because the selection filters test Python truthiness rather than
presence. -/
theorem zero_values_treated_as_absent (l1 l2 : List TempData) (d : TempData)
    (w1 w2 : List WeatherData) (w : WeatherData) :
    (d.currentTemp = some 0 →
      summarizeTemperatureData (l1 ++ d :: l2) =
        summarizeTemperatureData (l1 ++ ⟨none, d.targetTemp, d.humidity⟩ :: l2)) ∧
    (d.targetTemp = some 0 →
      summarizeTemperatureData (l1 ++ d :: l2) =
        summarizeTemperatureData (l1 ++ ⟨d.currentTemp, none, d.humidity⟩ :: l2)) ∧
    (d.humidity = some 0 →
      summarizeTemperatureData (l1 ++ d :: l2) =
        summarizeTemperatureData (l1 ++ ⟨d.currentTemp, d.targetTemp, none⟩ :: l2)) ∧
    (w.temperature = some 0 →
      summarizeWeatherData (w1 ++ w :: w2) =
        summarizeWeatherData (w1 ++ ⟨w.condition, none, w.humidity⟩ :: w2)) ∧
    (w.humidity = some 0 →
      summarizeWeatherData (w1 ++ w :: w2) =
        summarizeWeatherData (w1 ++ ⟨w.condition, w.temperature, none⟩ :: w2)) := by
  obtain ⟨dc, dt, dh⟩ := d
  obtain ⟨wc, wt, wh⟩ := w
  refine ⟨?_, ?_, ?_, ?_, ?_⟩ <;> intro h <;> simp only at h <;> subst h <;>
    simp [summarizeTemperatureData, summarizeWeatherData, truthyVals,
      List.filterMap_append, List.filterMap_cons, List.map_append]

/-- Witness for C10 at a concrete observation whose fields are all 0. -/
theorem zero_values_treated_as_absent_witness :
    (summarizeTemperatureData [⟨some 0, some 1, some 2⟩] =
      summarizeTemperatureData [⟨none, some 1, some 2⟩]) ∧
    (summarizeTemperatureData [⟨some 3, some 0, some 2⟩] =
      summarizeTemperatureData [⟨some 3, none, some 2⟩]) ∧
    (summarizeWeatherData [⟨"sunny", some 0, some 4⟩] =
      summarizeWeatherData [⟨"sunny", none, some 4⟩]) :=
  ⟨(zero_values_treated_as_absent [] [] ⟨some 0, some 1, some 2⟩ [] []
      ⟨"sunny", some 0, some 4⟩).1 rfl,
   (zero_values_treated_as_absent [] [] ⟨some 3, some 0, some 2⟩ [] []
      ⟨"sunny", some 0, some 4⟩).2.1 rfl,
   (zero_values_treated_as_absent [] [] ⟨some 3, some 0, some 2⟩ [] []
      ⟨"sunny", some 0, some 4⟩).2.2.2.1 rfl⟩

/-- Lookup after one bump: the bumped key gains one (starting from 0 when
absent), every other key is untouched. -/
theorem alistGet_bumpCount (acc : List (String × ℕ)) (t s : String) :
    alistGet (bumpCount acc t) s =
      if s = t then some ((alistGet acc s).getD 0 + 1) else alistGet acc s := by
  induction acc with
  | nil =>
      by_cases hst : s = t
      · subst hst
        simp [bumpCount, alistGet]
      · have hts : ¬ t = s := fun h => hst h.symm
        simp [bumpCount, alistGet, hst, hts]
  | cons p rest ih =>
      by_cases h1 : p.1 = t
      · subst h1
        by_cases h3 : s = p.1
        · subst h3
          simp [bumpCount, alistGet]
        · have h3s : ¬ p.1 = s := fun h => h3 h.symm
          simp [bumpCount, alistGet, h3, h3s]
      · by_cases h2 : p.1 = s
        · subst h2
          simp [bumpCount, alistGet, h1]
        · simp [bumpCount, alistGet, h1, h2, ih]

/-- Folding `bumpCount` over a list of service names: each key's final
count is its starting count plus its number of occurrences. -/
theorem alistGet_foldl_bumpCount (l : List String) :
    ∀ (acc : List (String × ℕ)) (s : String),
      alistGet (l.foldl bumpCount acc) s =
        if l.count s = 0 then alistGet acc s
        else some ((alistGet acc s).getD 0 + l.count s) := by
  induction l with
  | nil => simp
  | cons t l ih =>
      intro acc s
      rw [List.foldl_cons, ih, alistGet_bumpCount]
      by_cases hst : s = t
      · subst hst
        simp only [if_pos rfl, List.count_cons_self]
        by_cases hc : l.count s = 0
        · simp [hc]
        · simp [hc]
          omega
      · have : l.count s = (t :: l).count s := by
          simp [List.count_cons, hst]
        simp [hst, ← this]

/-- The content of `countsInOrder` as a mapping: each service name maps to
its occurrence count, names that never occur are absent. -/
theorem alistGet_countsInOrder (l : List String) (s : String) :
    alistGet (countsInOrder l) s =
      if l.count s = 0 then none else some (l.count s) := by
  rw [countsInOrder, alistGet_foldl_bumpCount]
  simp [alistGet]

/-- C9 counterexample: on an empty day the code returns `services_used` as
an empty *list*, not the empty mapping `{}` the claim states. -/
theorem user_input_empty_counterexample :
    summarizeUserInputs [] = ⟨0, ServicesUsed.asList [], none⟩ ∧
    ServicesUsed.asList [] ≠ ServicesUsed.asCounts [] := by
  exact ⟨rfl, by simp⟩

/-- C9 amended: on an empty day the user-input summary is total 0 with an
empty `services_used` *list* (not an empty mapping); on a non-empty day it
is the total input count plus per-service occurrence counts whose mapping
content is independent of insertion order. -/
theorem user_input_summary (services services2 : List String) :
    (services = [] →
      summarizeUserInputs services = ⟨0, ServicesUsed.asList [], none⟩) ∧
    (services ≠ [] →
      (summarizeUserInputs services).totalInputs = services.length ∧
      (summarizeUserInputs services).servicesUsed =
        ServicesUsed.asCounts (countsInOrder services) ∧
      ∀ s, alistGet (countsInOrder services) s =
        if services.count s = 0 then none else some (services.count s)) ∧
    (services.Perm services2 →
      ∀ s, alistGet (countsInOrder services) s =
        alistGet (countsInOrder services2) s) := by
  refine ⟨?_, ?_, ?_⟩
  · intro h
    subst h
    rfl
  · intro h
    have hne : ¬ services.isEmpty := by
      cases services with
      | nil => exact absurd rfl h
      | cons a l => simp
    refine ⟨?_, ?_, fun s => alistGet_countsInOrder services s⟩ <;>
      simp [summarizeUserInputs, hne]
  · intro hperm s
    rw [alistGet_countsInOrder, alistGet_countsInOrder, hperm.count_eq]

/-- Witness for the amended C9 at concrete inputs: the empty day, a 3-input
day, and a permutation of it with identical mapping content. -/
theorem user_input_summary_witness :
    summarizeUserInputs [] = ⟨0, ServicesUsed.asList [], none⟩ ∧
    (summarizeUserInputs ["seta", "boost", "seta"]).totalInputs = 3 ∧
    (∀ s, alistGet (countsInOrder ["seta", "boost", "seta"]) s =
      alistGet (countsInOrder ["seta", "seta", "boost"]) s) := by
  refine ⟨(user_input_summary [] []).1 rfl, ?_, ?_⟩
  · have h := ((user_input_summary ["seta", "boost", "seta"] []).2.1 (by simp)).1
    simpa using h
  · exact (user_input_summary ["seta", "boost", "seta"]
      ["seta", "seta", "boost"]).2.2 (by decide)

/-- C6: a poll in which the temperature, HVAC or thermostat entity is
missing from the state store aborts with no partial reading: the buffers
are returned unchanged, in particular both accumulation buffers keep their
lengths. -/
theorem missing_sensor_aborts_poll (c : CollectorBuffers) (now : ℚ)
    (tempState hvacState thermostatState : Option HAState)
    (hcfg : Bool) (humState : Option HAState)
    (h : tempState = none ∨ hvacState = none ∨ thermostatState = none) :
    collectReadingStep c now tempState hvacState thermostatState hcfg humState = c ∧
    (collectReadingStep c now tempState hvacState thermostatState hcfg
        humState).pendingReadings.length = c.pendingReadings.length ∧
    (collectReadingStep c now tempState hvacState thermostatState hcfg
        humState).userInputsToday.length = c.userInputsToday.length := by
  have hcr : collectReading now tempState hvacState thermostatState hcfg
      humState = none := by
    cases tempState with
    | none => cases hvacState <;> cases thermostatState <;> rfl
    | some tp =>
        cases hvacState with
        | none => cases thermostatState <;> rfl
        | some hv =>
            cases thermostatState with
            | none => rfl
            | some th => rcases h with h | h | h <;> simp at h
  refine ⟨?_, ?_, ?_⟩ <;> simp [collectReadingStep, hcr]

/-- Witness for C6: a poll with the temperature entity missing leaves empty
buffers empty. -/
theorem missing_sensor_aborts_poll_witness :
    collectReadingStep ⟨[], []⟩ 0 none
      (some ⟨"heat", none, Domain.sensor, "sensor.hvac_heat", none, none, none⟩)
      (some ⟨"auto", none, Domain.climate, "climate.t", none, none, some 70⟩)
      false none = ⟨[], []⟩ :=
  (missing_sensor_aborts_poll ⟨[], []⟩ 0 none
    (some ⟨"heat", none, Domain.sensor, "sensor.hvac_heat", none, none, none⟩)
    (some ⟨"auto", none, Domain.climate, "climate.t", none, none, some 70⟩)
    false none (Or.inl rfl)).1

/-- C7 counterexample: a daily report whose send times out leaves the
aggregator in exactly the state a successful send leaves it in — the failed
report is retained nowhere for retry (only the summary enters the
historical window, on success and failure alike), so the payload is
discarded, contrary to the claim. -/
theorem daily_report_not_preserved_counterexample :
    collectAndSendDailyData ⟨[], [], [], [], []⟩ ⟨none, none, none⟩ 0
        SendResult.timeout =
      collectAndSendDailyData ⟨[], [], [], [], []⟩ ⟨none, none, none⟩ 0
        (SendResult.status 200) ∧
    collectAndSendDailyData ⟨[], [], [], [], []⟩ ⟨none, none, none⟩ 0
        SendResult.timeout =
      ⟨[], [], [], [], [⟨0, ⟨none, none, none⟩⟩]⟩ :=
  ⟨rfl, rfl⟩

/-- C7 amended: a raw-readings batch whose send fails (timeout, connection
error or non-2xx status) is re-queued in full — the queue after the failed
send equals the queue before it — and every transport outcome is caught, so
nothing is raised to the caller (the send is a total function on outcomes);
a failed *daily report*, however, is not preserved: the aggregator state
after any failed send equals the state after a successful one. -/
theorem transport_failure_handling (queue : List DataPoint) (res : SendResult)
    (hq : queue.length ≤ MAX_QUEUE_SIZE) (hres : res ≠ SendResult.status 200) :
    asyncCollectAndSend queue res = queue ∧
    collectAndSendDailyData ⟨[], [], [], [], []⟩ ⟨none, none, none⟩ 0 res =
      collectAndSendDailyData ⟨[], [], [], [], []⟩ ⟨none, none, none⟩ 0
        (SendResult.status 200) := by
  refine ⟨?_, rfl⟩
  unfold asyncCollectAndSend
  by_cases hq0 : queue.isEmpty
  · simp [hq0]
  · have hne : ¬ (queue.take (min BATCH_SIZE queue.length)).isEmpty := by
      cases queue with
      | nil => simp at hq0
      | cons a t => simp [BATCH_SIZE]
    have hre : ((queue.take (min BATCH_SIZE queue.length) ++
        queue.drop (min BATCH_SIZE queue.length)).take MAX_QUEUE_SIZE) = queue := by
      rw [List.take_append_drop]
      exact List.take_of_length_le hq
    unfold sendDataBatch
    cases res with
    | status code =>
        have hc : ¬ code = 200 := fun h => hres (by rw [h])
        simp [hq0, hne, hc, hre, hq]
    | timeout => simp [hq0, hne, hre, hq]
    | exn => simp [hq0, hne, hre, hq]

/-- Witness for the amended C7: a 3-element queue is intact after a timed
out send, and the failed daily report leaves the same state as a successful
one. -/
theorem transport_failure_handling_witness :
    asyncCollectAndSend [1, 2, 3] SendResult.timeout = [1, 2, 3] ∧
    collectAndSendDailyData ⟨[], [], [], [], []⟩ ⟨none, none, none⟩ 0
        SendResult.timeout =
      collectAndSendDailyData ⟨[], [], [], [], []⟩ ⟨none, none, none⟩ 0
        (SendResult.status 200) :=
  transport_failure_handling [1, 2, 3] SendResult.timeout
    (by norm_num [MAX_QUEUE_SIZE]) (by simp)

/-- C8 counterexample: in auto mode with known numeric temperatures
current 10 and target 0, the difference is well below the dead-band
(0 - 10 < -0.5), so the claim requires "cooling"; the code's truthiness
test treats the target 0 as missing, skips the inference and reports
"OFF". -/
theorem auto_mode_zero_target_counterexample :
    determineHvacAction
      ⟨"auto", none, Domain.climate, "climate.x", none, some "auto", some 0⟩
      ⟨"10", some 10, Domain.sensor, "sensor.temp", none, none, none⟩ = "OFF" ∧
    ((0 : ℚ) - 10 < -(1/2)) ∧ ("OFF" : String) ≠ "COOL" := by
  refine ⟨by decide, by norm_num, by decide⟩

/-- C8 amended: for a climate-source reading in auto mode (no explicit
`hvac_action` attribute) with known numeric current and *nonzero* target
temperatures, the reported action follows the ±0.5 dead-band on
(target − current): above 0.5 heating, below −0.5 cooling, otherwise off
(a zero target is treated as missing by the truthiness test and yields
off). -/
theorem auto_mode_deadband (hvac temp : HAState) (c t : ℚ)
    (hdom : hvac.domain = Domain.climate)
    (hact : hvac.attrHvacAction = none)
    (hmode : pyUpper (hvac.attrHvacMode.getD hvac.state) = "AUTO")
    (hts : temp.state ≠ "")
    (htn : temp.stateNum = some c)
    (htarget : hvac.attrTemperature = some t) (htz : t ≠ 0) :
    determineHvacAction hvac temp =
      if t - c > 1/2 then "HEAT"
      else if t - c < -(1/2) then "COOL"
      else "OFF" := by
  simp only [determineHvacAction, hdom, climateHvacAction, hact, Option.map_none',
    hmode, htn, htarget, numTruthy, hts, htz]
  split_ifs <;> simp_all [finalHvacAction]

/-- Witness for the amended C8: current 70, target 75 gives difference 5
above the dead-band, hence heating. -/
theorem auto_mode_deadband_witness :
    determineHvacAction
      ⟨"auto", none, Domain.climate, "climate.x", none, some "auto", some 75⟩
      ⟨"70", some 70, Domain.sensor, "sensor.temp", none, none, none⟩ = "HEAT" := by
  have h := auto_mode_deadband
    ⟨"auto", none, Domain.climate, "climate.x", none, some "auto", some 75⟩
    ⟨"70", some 70, Domain.sensor, "sensor.temp", none, none, none⟩ 70 75
    rfl rfl (by decide) (by decide) rfl rfl (by norm_num)
  rw [h]
  norm_num

end CurveControl
